import Mathlib

/-
Verification of the aicommit commit-message pipeline (src/aicommit.py).

The script is shallowly embedded: JSON values are an inductive type,
Python exceptions are an explicit error type, every external interaction
(subprocess call, HTTP request, log line) is recorded as an `Effect` in a
trace, and the outside world (environment variables, subprocess results,
the HTTP response) is a `World` record supplying the data the script
would observe.  Each method of `AICommitMessageGenerator` becomes a Lean
function returning the effects it performs together with its result.
-/

namespace AICommit

/- JSON values as produced by json.loads.  JSON object keys are strings;
   number precision is irrelevant to this development, so numbers are
   modelled as integers.  Association lists stand in for dicts (the
   script never builds or reads a dict with duplicate keys). -/

inductive Json where
  | null
  | bool (b : Bool)
  | num (n : Int)
  | str (s : String)
  | arr (elems : List Json)
  | obj (fields : List (String × Json))

/- Python exceptions that the script can raise or propagate. -/

inductive PyError where
  | osError (msg : String)
  | keyError (key : String)
  | indexError (msg : String)
  | typeError (msg : String)
  | urlError (msg : String)
  | jsonDecodeError (msg : String)

def PyError.message : PyError → String
  | .osError m => m
  | .keyError k => k
  | .indexError m => m
  | .typeError m => m
  | .urlError m => m
  | .jsonDecodeError m => m

/- Python subscription v[k] with a string key: succeeds only on a dict
   containing the key (KeyError when absent); subscripting a list, a
   string, a number, a bool or None with a string key is a TypeError. -/

def Json.getKey : Json → String → Except PyError Json
  | .obj fields, k =>
    match fields.lookup k with
    | some v => Except.ok v
    | none => Except.error (PyError.keyError k)
  | _, k => Except.error (PyError.typeError ("not subscriptable with key " ++ k))

/- Python subscription v[i] with a nonnegative integer index: succeeds on
   a long-enough list (or string, yielding a one-character string);
   IndexError when out of range; on a JSON-parsed dict all keys are
   strings, so an integer subscript is a KeyError; TypeError otherwise. -/

def Json.getIdx : Json → Nat → Except PyError Json
  | .arr elems, i =>
    match elems.get? i with
    | some v => Except.ok v
    | none => Except.error (PyError.indexError "list index out of range")
  | .str s, i =>
    match s.data.get? i with
    | some c => Except.ok (Json.str (String.mk [c]))
    | none => Except.error (PyError.indexError "string index out of range")
  | .obj _, i => Except.error (PyError.keyError (toString i))
  | _, _ => Except.error (PyError.typeError "not subscriptable with an index")

/- The extraction step of call_gemini_api:
   response_json["candidates"][0]["content"]["parts"][0]["text"].
   Any failure along the path is a raised exception (Except.error). -/

def extract_message (j : Json) : Except PyError Json :=
  match j.getKey "candidates" with
  | Except.error e => Except.error e
  | Except.ok c =>
    match c.getIdx 0 with
    | Except.error e => Except.error e
    | Except.ok c0 =>
      match c0.getKey "content" with
      | Except.error e => Except.error e
      | Except.ok ct =>
        match ct.getKey "parts" with
        | Except.error e => Except.error e
        | Except.ok ps =>
          match ps.getIdx 0 with
          | Except.error e => Except.error e
          | Except.ok p0 => p0.getKey "text"

/- The constant parts of the prompt template of build_prompt: the Python
   f-string with {git_diff} removed splits it into a head and a tail. -/

def promptHead : String :=
  "\n            This is a Git diff from a repository.\n\n            Generate a commit message with changes summary.\n\n            Guidelines:\n            - Do NOT include prefixes like \x27feat:\x27 or \x27fix:\x27 in the commit message.\n            - Do NOT include the given git diff in the commit message.\n            - Always include a bullet point summary of the changes,\n              using \x27-\x27 as the bullet character.\n            - Follow the 50/70 rule: the summary line should be ≤ 50 characters,\n              and each line in the description should be ≤ 70 characters.\n            - Use plain English with no special characters or emojis.\n            - Format the output as follows:\n\n            <commit message>\n\n            <description or summary in bullet point format>\n\n            "

def promptTail : String :=
  "\n        "

def build_prompt (git_diff : String) : String :=
  promptHead ++ git_diff ++ promptTail

/- Explicit decompositions of promptHead around each instruction literal
   that the spec calls out; each pair of strings below is the text of
   promptHead before and after the corresponding literal. -/

def litNoTypePfxA : String :=
  "\n            This is a Git diff from a repository.\n\n            Generate a commit message with changes summary.\n\n            Guidelines:\n            "

def litNoTypePfxB : String :=
  "\n            - Do NOT include the given git diff in the commit message.\n            - Always include a bullet point summary of the changes,\n              using \x27-\x27 as the bullet character.\n            - Follow the 50/70 rule: the summary line should be ≤ 50 characters,\n              and each line in the description should be ≤ 70 characters.\n            - Use plain English with no special characters or emojis.\n            - Format the output as follows:\n\n            <commit message>\n\n            <description or summary in bullet point format>\n\n            "

def litBulletDashA : String :=
  "\n            This is a Git diff from a repository.\n\n            Generate a commit message with changes summary.\n\n            Guidelines:\n            - Do NOT include prefixes like \x27feat:\x27 or \x27fix:\x27 in the commit message.\n            - Do NOT include the given git diff in the commit message.\n            - Always include a bullet point summary of the changes,\n              "

def litBulletDashB : String :=
  ".\n            - Follow the 50/70 rule: the summary line should be ≤ 50 characters,\n              and each line in the description should be ≤ 70 characters.\n            - Use plain English with no special characters or emojis.\n            - Format the output as follows:\n\n            <commit message>\n\n            <description or summary in bullet point format>\n\n            "

def litFiftyA : String :=
  "\n            This is a Git diff from a repository.\n\n            Generate a commit message with changes summary.\n\n            Guidelines:\n            - Do NOT include prefixes like \x27feat:\x27 or \x27fix:\x27 in the commit message.\n            - Do NOT include the given git diff in the commit message.\n            - Always include a bullet point summary of the changes,\n              using \x27-\x27 as the bullet character.\n            - Follow the 50/70 rule: the summary line should be "

def litFiftyB : String :=
  ",\n              and each line in the description should be ≤ 70 characters.\n            - Use plain English with no special characters or emojis.\n            - Format the output as follows:\n\n            <commit message>\n\n            <description or summary in bullet point format>\n\n            "

def litSeventyA : String :=
  "\n            This is a Git diff from a repository.\n\n            Generate a commit message with changes summary.\n\n            Guidelines:\n            - Do NOT include prefixes like \x27feat:\x27 or \x27fix:\x27 in the commit message.\n            - Do NOT include the given git diff in the commit message.\n            - Always include a bullet point summary of the changes,\n              using \x27-\x27 as the bullet character.\n            - Follow the 50/70 rule: the summary line should be ≤ 50 characters,\n              and each line in the description should be "

def litSeventyB : String :=
  ".\n            - Use plain English with no special characters or emojis.\n            - Format the output as follows:\n\n            <commit message>\n\n            <description or summary in bullet point format>\n\n            "

/- Python str.strip() removes ASCII whitespace (and some more); the
   script only tests `not diff.strip()`, which holds exactly when every
   character of the diff is whitespace (including the empty diff). -/

def isPyWhitespaceChar (c : Char) : Bool :=
  c == ' ' || c == '\t' || c == '\n' || c == '\r' || c == '\x0b' || c == '\x0c'

def pyBlank (s : String) : Bool :=
  s.data.all isPyWhitespaceChar

/- The result of subprocess.run(..., capture_output=True, text=True).
   The script only ever reads stdout and stderr; returncode is carried so
   that theorems can state that it is ignored. -/

structure SubprocResult where
  stdout : String
  stderr : String
  returncode : Int

/- The attributes set by AICommitMessageGenerator.__init__. -/

structure Config where
  API_KEY : String
  LLM_MODEL : String
  BASE_URL : String
  repo_path : String

/- Everything the outside world supplies to one run of the script: the
   process environment, the working directory, the result of each git
   subprocess the script may spawn, and the HTTP response (already read
   and json-parsed; a transport or parse failure is the corresponding
   exception).  The add, commit and restore results are present because
   the subprocesses produce them, but the script never reads them. -/

structure World where
  env : String → Option String
  cwd : String
  statusResult : SubprocResult
  addResult : SubprocResult
  diffResult : SubprocResult
  commitResult : SubprocResult
  restoreResult : SubprocResult
  httpResponse : Except PyError Json

/- Observable effects of the script, in program order: log lines, the
   five git subprocess invocations, and the single HTTP POST. -/

inductive Effect where
  | logInfo (msg : String)
  | logError (msg : String)
  | logWarning (msg : String)
  | gitStatus
  | gitAdd
  | gitDiffCached
  | httpPost (url : String) (payload : Json)
  | gitCommit (message : Json)
  | gitRestoreStaged

def isAddEff : Effect → Bool
  | Effect.gitAdd => true
  | _ => false

def isDiffEff : Effect → Bool
  | Effect.gitDiffCached => true
  | _ => false

def isHttpPostEff : Effect → Bool
  | Effect.httpPost _ _ => true
  | _ => false

def isCommitEff : Effect → Bool
  | Effect.gitCommit _ => true
  | _ => false

def isRestoreEff : Effect → Bool
  | Effect.gitRestoreStaged => true
  | _ => false

def isErrJson : Except PyError Json → Bool
  | Except.error _ => true
  | Except.ok _ => false

def isErrUnit : Except PyError Unit → Bool
  | Except.error _ => true
  | Except.ok _ => false

/- __init__: reads GEMINI_API_KEY and the working directory, sets the
   constant base URL and the model name, and raises OSError when the key
   is falsy (absent or the empty string).  No subprocess or network
   effect is performed, hence the empty trace. -/

def init (env : String → Option String) (cwd : String) (model : String) :
    List Effect × Except PyError Config :=
  ([],
    match env "GEMINI_API_KEY" with
    | none => Except.error (PyError.osError "GEMINI_API_KEY environment variable is not set.")
    | some k =>
      if k = "" then
        Except.error (PyError.osError "GEMINI_API_KEY environment variable is not set.")
      else
        Except.ok
          { API_KEY := k
            LLM_MODEL := model
            BASE_URL := "https://generativelanguage.googleapis.com/v1beta/models/"
            repo_path := cwd })

/- check_git_status: runs `git status` and raises OSError carrying the
   stderr text exactly when that text is truthy, i.e. non-empty.  The
   exit code of the subprocess is never consulted. -/

def check_git_status (w : World) : List Effect × Except PyError Unit :=
  ([Effect.gitStatus],
    if w.statusResult.stderr = "" then Except.ok ()
    else Except.error (PyError.osError w.statusResult.stderr))

/- get_git_diff: runs `git add .` (result ignored) then returns the
   stdout of `git diff --cached`. -/

def get_git_diff (w : World) : List Effect × String :=
  ([Effect.gitAdd, Effect.gitDiffCached], w.diffResult.stdout)

/- The request payload json.dumps would serialise:
   four braces of nesting around the prompt text. -/

def geminiPayload (prompt : String) : Json :=
  Json.obj
    [("contents",
      Json.arr [Json.obj [("parts", Json.arr [Json.obj [("text", Json.str prompt)]])]])]

/- call_gemini_api: one HTTP POST to BASE_URL ++ model ++ query string;
   a transport or JSON-parse failure propagates, otherwise the result is
   the extraction from the parsed response. -/

def call_gemini_api (cfg : Config) (w : World) (prompt : String) :
    List Effect × Except PyError Json :=
  ([Effect.httpPost
      (cfg.BASE_URL ++ cfg.LLM_MODEL ++ ":generateContent?key=" ++ cfg.API_KEY)
      (geminiPayload prompt)],
    match w.httpResponse with
    | Except.error e => Except.error e
    | Except.ok j => extract_message j)

/- commit_changes: `git commit --edit --message <msg>` followed
   unconditionally by `git restore --staged .`; neither result is read. -/

def commit_changes (message : Json) : List Effect :=
  [Effect.gitCommit message, Effect.gitRestoreStaged]

/- run: the full pipeline.  Only check_git_status is wrapped in
   try/except OSError (logging the error and returning cleanly); every
   error after it propagates to the caller. -/

def run (cfg : Config) (w : World) : List Effect × Except PyError Unit :=
  let t0 := [Effect.logInfo ("Current repo path: " ++ cfg.repo_path)]
  match check_git_status w with
  | (t1, Except.error e) =>
    (t0 ++ t1 ++ [Effect.logError e.message], Except.ok ())
  | (t1, Except.ok _) =>
    match get_git_diff w with
    | (t2, diff) =>
      if pyBlank diff then
        (t0 ++ t1 ++ t2 ++ [Effect.logWarning "No changes to commit."], Except.ok ())
      else
        match call_gemini_api cfg w (build_prompt diff) with
        | (t3, Except.error e) => (t0 ++ t1 ++ t2 ++ t3, Except.error e)
        | (t3, Except.ok msg) =>
          (t0 ++ t1 ++ t2 ++ t3 ++ commit_changes msg, Except.ok ())

/- The __main__ block: AICommitMessageGenerator().run() with the default
   model name; a constructor failure propagates before any effect. -/

def aicommitMain (w : World) : List Effect × Except PyError Unit :=
  match init w.env w.cwd "gemini-2.0-flash" with
  | (t, Except.error e) => (t, Except.error e)
  | (t, Except.ok cfg) =>
    match run cfg w with
    | (t2, r) => (t ++ t2, r)

/- A minimal model of the repository state the git subprocesses act on:
   the committed tree, the index, and the working tree, each a map from
   file name to content.  `git add .` copies the working tree into the
   index, `git restore --staged .` resets the index to the committed
   tree, and an accepted `git commit` promotes the index.  `git status`,
   `git diff --cached`, the log lines and the HTTP call leave the
   repository untouched. -/

structure Repo where
  head : List (String × String)
  index : List (String × String)
  worktree : List (String × String)

def applyEffect (r : Repo) : Effect → Repo
  | Effect.gitAdd => { r with index := r.worktree }
  | Effect.gitCommit _ => { r with head := r.index }
  | Effect.gitRestoreStaged => { r with index := r.head }
  | _ => r

def applyTrace (r : Repo) (t : List Effect) : Repo :=
  t.foldl applyEffect r

/- Substring containment, used to state the prompt-template claims. -/

def containsStr (haystack needle : String) : Prop :=
  ∃ p s : String, haystack = p ++ needle ++ s

/- Concrete sample data used by the witnesses. -/

def examplePartsFix : Json :=
  Json.arr [Json.obj [("text", Json.str "Fix bug\n\n- did X")]]

def exampleContentFix : Json :=
  Json.obj [("parts", examplePartsFix)]

def exampleCandFix : Json :=
  Json.obj [("content", exampleContentFix)]

def exampleResponseFix : Json :=
  Json.obj [("candidates", Json.arr [exampleCandFix])]

def examplePartsLog : Json :=
  Json.arr [Json.obj [("text", Json.str "Improve logging\n\n- add timestamps")]]

def exampleContentLog : Json :=
  Json.obj [("parts", examplePartsLog)]

def exampleCandLog : Json :=
  Json.obj [("content", exampleContentLog)]

def exampleResponseLog : Json :=
  Json.obj [("candidates", Json.arr [exampleCandLog])]

def envEmpty : String → Option String := fun _ => none

def envWithKey : String → Option String :=
  fun v => if v = "GEMINI_API_KEY" then some "test-key" else none

def envBlankKey : String → Option String :=
  fun v => if v = "GEMINI_API_KEY" then some "" else none

def okSub : SubprocResult :=
  { stdout := "", stderr := "", returncode := 0 }

def baseWorld : World :=
  { env := envWithKey
    cwd := "/tmp/repo"
    statusResult := okSub
    addResult := okSub
    diffResult := okSub
    commitResult := okSub
    restoreResult := okSub
    httpResponse := Except.error (PyError.urlError "no network") }

def sampleConfig : Config :=
  { API_KEY := "test-key"
    LLM_MODEL := "gemini-2.0-flash"
    BASE_URL := "https://generativelanguage.googleapis.com/v1beta/models/"
    repo_path := "/tmp/repo" }

def worldNoKey : World := { baseWorld with env := envEmpty }

def worldBadStatus : World :=
  { baseWorld with
    statusResult := { stdout := "", stderr := "fatal: not a git repository", returncode := 0 } }

def worldOddExit : World :=
  { baseWorld with
    statusResult := { stdout := "", stderr := "", returncode := 128 } }

def worldSuccess : World :=
  { baseWorld with
    diffResult := { stdout := "diff --git a/a.txt b/a.txt\n+new line", stderr := "", returncode := 0 }
    httpResponse := Except.ok exampleResponseLog }

/- The full effect trace of the success path, for stating claim C5. -/

def successTrace (cfg : Config) (w : World) (msg : Json) : List Effect :=
  [Effect.logInfo ("Current repo path: " ++ cfg.repo_path), Effect.gitStatus,
   Effect.gitAdd, Effect.gitDiffCached,
   Effect.httpPost
     (cfg.BASE_URL ++ cfg.LLM_MODEL ++ ":generateContent?key=" ++ cfg.API_KEY)
     (geminiPayload (build_prompt w.diffResult.stdout)),
   Effect.gitCommit msg, Effect.gitRestoreStaged]

/- A rendering of `git diff --cached` output is faithful when a diff that
   is blank after stripping can only arise from identical trees; with it
   the empty-diff short circuit leaves the index equal to the committed
   tree. -/

def renderIfNe : List (String × String) → List (String × String) → String :=
  fun a b => if a = b then "" else "x"

def repoClean : Repo :=
  { head := [("a.txt", "1")], index := [("a.txt", "1")], worktree := [("a.txt", "1")] }

end AICommit

namespace AICommit

/-- Claim C1: extraction from the API response is a raises-iff property:
whenever the path candidates[0].content.parts[0].text exists and holds the
string s, extract_message returns exactly that string, and whenever the
response object lacks the candidates key, extract_message raises (returns
an error) instead of a default or empty value. -/
theorem claim1_extraction_path (j c c0 ct ps p0 : Json) (s : String)
    (fields : List (String × Json))
    (h1 : j.getKey "candidates" = Except.ok c)
    (h2 : c.getIdx 0 = Except.ok c0)
    (h3 : c0.getKey "content" = Except.ok ct)
    (h4 : ct.getKey "parts" = Except.ok ps)
    (h5 : ps.getIdx 0 = Except.ok p0)
    (h6 : p0.getKey "text" = Except.ok (Json.str s))
    (hm : fields.lookup "candidates" = none) :
    extract_message j = Except.ok (Json.str s)
      ∧ isErrJson (extract_message (Json.obj fields)) = true := by
  constructor
  · simp [extract_message, h1, h2, h3, h4, h5, h6]
  · simp [extract_message, Json.getKey, hm, isErrJson]

/-- Witness for C1: the documented example response yields exactly
"Fix bug\n\n- did X", and an object with no candidates key errors. -/
theorem claim1_extraction_path_witness :
    extract_message exampleResponseFix = Except.ok (Json.str "Fix bug\n\n- did X")
      ∧ isErrJson (extract_message (Json.obj [])) = true :=
  claim1_extraction_path exampleResponseFix (Json.arr [exampleCandFix]) exampleCandFix
    exampleContentFix examplePartsFix (Json.obj [("text", Json.str "Fix bug\n\n- did X")])
    "Fix bug\n\n- did X" [] rfl rfl rfl rfl rfl rfl rfl

/-- Claim C2: when the GEMINI_API_KEY variable is absent from the
environment, the program fails with the fatal configuration OSError and
its effect trace is empty, so no subprocess invocation and no network
call is ever attempted. -/
theorem claim2_missing_key_fails_first (w : World)
    (h : w.env "GEMINI_API_KEY" = none) :
    aicommitMain w =
      ([], Except.error (PyError.osError "GEMINI_API_KEY environment variable is not set.")) := by
  simp [aicommitMain, init, h]

/-- Witness for C2: a concrete world with an empty environment. -/
theorem claim2_missing_key_fails_first_witness :
    aicommitMain worldNoKey =
      ([], Except.error (PyError.osError "GEMINI_API_KEY environment variable is not set.")) :=
  claim2_missing_key_fails_first worldNoKey rfl

/-- Claim C8: check_git_status raises an error exactly when the stderr of
the status subprocess is non-empty, and its behaviour is unchanged under
any modification of the subprocess exit code, so fatality is decided by
stderr alone and never by the exit code. -/
theorem claim8_stderr_decides_fatality (w : World) (rc : Int) :
    (isErrUnit (check_git_status w).2 = true ↔ w.statusResult.stderr ≠ "")
      ∧ check_git_status
          { w with statusResult := { w.statusResult with returncode := rc } } =
          check_git_status w := by
  constructor
  · by_cases h : w.statusResult.stderr = "" <;> simp [check_git_status, h, isErrUnit]
  · simp [check_git_status]

/-- Witness for C8: a zero-exit status run with stderr text is fatal,
while a nonzero-exit run with empty stderr is not. -/
theorem claim8_stderr_decides_fatality_witness :
    isErrUnit (check_git_status worldBadStatus).2 = true
      ∧ isErrUnit (check_git_status worldOddExit).2 ≠ true :=
  ⟨(claim8_stderr_decides_fatality worldBadStatus 0).1.mpr (by decide),
   fun hcon => absurd ((claim8_stderr_decides_fatality worldOddExit 0).1.mp hcon) (by decide)⟩

/-- Claim C9: an API key set to the empty string is treated identically
to an absent variable: initialization raises the same fatal OSError,
because the code tests the falsiness of the value. -/
theorem claim9_empty_key_like_missing (cwd model : String)
    (env1 env2 : String → Option String)
    (h1 : env1 "GEMINI_API_KEY" = some "")
    (h2 : env2 "GEMINI_API_KEY" = none) :
    init env1 cwd model =
        ([], Except.error (PyError.osError "GEMINI_API_KEY environment variable is not set."))
      ∧ init env1 cwd model = init env2 cwd model := by
  constructor <;> simp [init, h1, h2]

/-- Witness for C9: concrete environments with an empty-string key and
with no key at all. -/
theorem claim9_empty_key_like_missing_witness :
    init envBlankKey "/tmp/repo" "gemini-2.0-flash" =
        ([], Except.error (PyError.osError "GEMINI_API_KEY environment variable is not set."))
      ∧ init envBlankKey "/tmp/repo" "gemini-2.0-flash" =
          init envEmpty "/tmp/repo" "gemini-2.0-flash" :=
  claim9_empty_key_like_missing "/tmp/repo" "gemini-2.0-flash" envBlankKey envEmpty rfl rfl

/-- Claim C3: when the status query reports any stderr text, run logs the
error and returns cleanly (no exception), its trace holds no add, no
cached-diff, no HTTP POST, no commit and no restore effect, and the
repository state is left exactly as it was. -/
theorem claim3_status_error_clean_stop (cfg : Config) (w : World) (r0 : Repo)
    (h : w.statusResult.stderr ≠ "") :
    run cfg w =
        ([Effect.logInfo ("Current repo path: " ++ cfg.repo_path), Effect.gitStatus,
          Effect.logError w.statusResult.stderr], Except.ok ())
      ∧ (run cfg w).1.countP isAddEff = 0
      ∧ (run cfg w).1.countP isDiffEff = 0
      ∧ (run cfg w).1.countP isHttpPostEff = 0
      ∧ (run cfg w).1.countP isCommitEff = 0
      ∧ (run cfg w).1.countP isRestoreEff = 0
      ∧ applyTrace r0 (run cfg w).1 = r0 := by
  have hrun : run cfg w =
      ([Effect.logInfo ("Current repo path: " ++ cfg.repo_path), Effect.gitStatus,
        Effect.logError w.statusResult.stderr], Except.ok ()) := by
    simp [run, check_git_status, h, PyError.message]
  rw [hrun]
  refine ⟨rfl, ?_, ?_, ?_, ?_, ?_, rfl⟩ <;>
    simp [List.countP_cons, isAddEff, isDiffEff, isHttpPostEff, isCommitEff, isRestoreEff]

/-- Witness for C3: a world whose status query reports a fatal message. -/
theorem claim3_status_error_clean_stop_witness :
    run sampleConfig worldBadStatus =
        ([Effect.logInfo ("Current repo path: " ++ sampleConfig.repo_path), Effect.gitStatus,
          Effect.logError worldBadStatus.statusResult.stderr], Except.ok ())
      ∧ (run sampleConfig worldBadStatus).1.countP isAddEff = 0
      ∧ (run sampleConfig worldBadStatus).1.countP isDiffEff = 0
      ∧ (run sampleConfig worldBadStatus).1.countP isHttpPostEff = 0
      ∧ (run sampleConfig worldBadStatus).1.countP isCommitEff = 0
      ∧ (run sampleConfig worldBadStatus).1.countP isRestoreEff = 0
      ∧ applyTrace repoClean (run sampleConfig worldBadStatus).1 = repoClean :=
  claim3_status_error_clean_stop sampleConfig worldBadStatus repoClean (by decide)

/-- Claim C4: when the status query is clean but the captured diff is
empty or whitespace-only, run logs the warning and returns cleanly, and
its trace holds no HTTP POST, no commit and no restore effect. -/
theorem claim4_empty_diff_stops (cfg : Config) (w : World)
    (h1 : w.statusResult.stderr = "")
    (h2 : pyBlank w.diffResult.stdout = true) :
    run cfg w =
        ([Effect.logInfo ("Current repo path: " ++ cfg.repo_path), Effect.gitStatus,
          Effect.gitAdd, Effect.gitDiffCached,
          Effect.logWarning "No changes to commit."], Except.ok ())
      ∧ (run cfg w).1.countP isHttpPostEff = 0
      ∧ (run cfg w).1.countP isCommitEff = 0
      ∧ (run cfg w).1.countP isRestoreEff = 0 := by
  have hrun : run cfg w =
      ([Effect.logInfo ("Current repo path: " ++ cfg.repo_path), Effect.gitStatus,
        Effect.gitAdd, Effect.gitDiffCached,
        Effect.logWarning "No changes to commit."], Except.ok ()) := by
    simp [run, check_git_status, get_git_diff, h1, h2]
  rw [hrun]
  refine ⟨rfl, ?_, ?_, ?_⟩ <;>
    simp [List.countP_cons, isHttpPostEff, isCommitEff, isRestoreEff]

/-- Witness for C4: a world with a clean status and an empty diff. -/
theorem claim4_empty_diff_stops_witness :
    run sampleConfig baseWorld =
        ([Effect.logInfo ("Current repo path: " ++ sampleConfig.repo_path), Effect.gitStatus,
          Effect.gitAdd, Effect.gitDiffCached,
          Effect.logWarning "No changes to commit."], Except.ok ())
      ∧ (run sampleConfig baseWorld).1.countP isHttpPostEff = 0
      ∧ (run sampleConfig baseWorld).1.countP isCommitEff = 0
      ∧ (run sampleConfig baseWorld).1.countP isRestoreEff = 0 :=
  claim4_empty_diff_stops sampleConfig baseWorld rfl (by decide)

/-- Claim C5: on the non-empty-diff path with a successful extraction,
the extracted value msg is passed unmodified as the commit message, the
restore-staged step appears exactly once and immediately after the commit
effect (the trace ends with commit msg, restore), and the whole behaviour
is unchanged under any commit subprocess outcome, which is never
inspected. -/
theorem claim5_success_path (cfg : Config) (w : World) (j msg : Json) (cr : SubprocResult)
    (h1 : w.statusResult.stderr = "")
    (h2 : pyBlank w.diffResult.stdout = false)
    (h3 : w.httpResponse = Except.ok j)
    (h4 : extract_message j = Except.ok msg) :
    run cfg w = (successTrace cfg w msg, Except.ok ())
      ∧ (run cfg w).1.countP isRestoreEff = 1
      ∧ run cfg { w with commitResult := cr } = run cfg w := by
  have hrun : run cfg w = (successTrace cfg w msg, Except.ok ()) := by
    simp [run, check_git_status, get_git_diff, call_gemini_api, commit_changes,
      successTrace, h1, h2, h3, h4]
  have hrun2 : run cfg { w with commitResult := cr } = (successTrace cfg w msg, Except.ok ()) := by
    simp [run, check_git_status, get_git_diff, call_gemini_api, commit_changes,
      successTrace, h1, h2, h3, h4]
  refine ⟨hrun, ?_, hrun2.trans hrun.symm⟩
  rw [hrun]
  simp [successTrace, List.countP_cons, isRestoreEff]

/-- Witness for C5: a nonempty diff and the documented example response
"Improve logging\n\n- add timestamps" drive the full success path. -/
theorem claim5_success_path_witness :
    run sampleConfig worldSuccess =
        (successTrace sampleConfig worldSuccess (Json.str "Improve logging\n\n- add timestamps"),
          Except.ok ())
      ∧ (run sampleConfig worldSuccess).1.countP isRestoreEff = 1
      ∧ run sampleConfig { worldSuccess with commitResult := okSub } =
          run sampleConfig worldSuccess :=
  claim5_success_path sampleConfig worldSuccess exampleResponseLog
    (Json.str "Improve logging\n\n- add timestamps") okSub rfl (by decide) rfl rfl

/-- Claim C7: on the empty-diff short-circuit path nothing is left
staged: for any repository state whose rendered cached diff the world
reports, a blank diff forces the working tree to equal the committed
tree, so after the trace (which stages via git add but never restores)
the index coincides with the committed tree, i.e. the index is in its
unstaged state at exit. -/
theorem claim7_empty_diff_leaves_index_unstaged (cfg : Config) (w : World) (r0 : Repo)
    (render : List (String × String) → List (String × String) → String)
    (hfaith : ∀ a b, pyBlank (render a b) = true → a = b)
    (hdiff : w.diffResult.stdout = render r0.head r0.worktree)
    (h1 : w.statusResult.stderr = "")
    (h2 : pyBlank w.diffResult.stdout = true) :
    (applyTrace r0 (run cfg w).1).index = (applyTrace r0 (run cfg w).1).head := by
  have hw : r0.head = r0.worktree := hfaith _ _ (by rw [← hdiff]; exact h2)
  have hrun : run cfg w =
      ([Effect.logInfo ("Current repo path: " ++ cfg.repo_path), Effect.gitStatus,
        Effect.gitAdd, Effect.gitDiffCached,
        Effect.logWarning "No changes to commit."], Except.ok ()) := by
    simp [run, check_git_status, get_git_diff, h1, h2]
  rw [hrun]
  simp only [applyTrace, applyEffect, List.foldl]
  exact hw.symm

/-- Witness for C7: a concrete clean repository and a faithful renderer. -/
theorem claim7_empty_diff_leaves_index_unstaged_witness :
    (applyTrace repoClean (run sampleConfig baseWorld).1).index =
      (applyTrace repoClean (run sampleConfig baseWorld).1).head :=
  claim7_empty_diff_leaves_index_unstaged sampleConfig baseWorld repoClean renderIfNe
    (by
      intro a b hb
      by_cases hab : a = b
      · exact hab
      · rw [renderIfNe] at hb
        simp only [if_neg hab] at hb
        exact absurd hb (by decide))
    (by decide) rfl (by decide)

/- Any split of promptHead around a literal yields that literal as a
   substring of every built prompt. -/

theorem containsStr_of_head_split (p mid rest d : String)
    (h : promptHead = p ++ mid ++ rest) :
    containsStr (build_prompt d) mid := by
  refine ⟨p, rest ++ d ++ promptTail, ?_⟩
  rw [build_prompt, h]
  simp [String.append_assoc]

set_option maxRecDepth 4096 in
theorem promptHead_split_noTypePfx :
    promptHead =
      litNoTypePfxA ++
        "- Do NOT include prefixes like \x27feat:\x27 or \x27fix:\x27 in the commit message." ++
        litNoTypePfxB := by
  decide

set_option maxRecDepth 4096 in
theorem promptHead_split_bulletDash :
    promptHead =
      litBulletDashA ++ "using \x27-\x27 as the bullet character" ++ litBulletDashB := by
  decide

set_option maxRecDepth 4096 in
theorem promptHead_split_fifty :
    promptHead = litFiftyA ++ "≤ 50 characters" ++ litFiftyB := by
  decide

set_option maxRecDepth 4096 in
theorem promptHead_split_seventy :
    promptHead = litSeventyA ++ "≤ 70 characters" ++ litSeventyB := by
  decide

/-- Claim C6: for every nonempty diff d, build_prompt is the fixed
template promptHead ++ d ++ promptTail (pure total string templating),
the prompt contains d verbatim, and it contains the literal instruction
substrings for the dash bullet character, the 50-character and
70-character limits, and the prohibition on conventional-commit type
prefix markers. -/
theorem claim6_prompt_contains_instructions (d : String) (hd : d ≠ "") :
    build_prompt d = promptHead ++ d ++ promptTail
      ∧ containsStr (build_prompt d) d
      ∧ containsStr (build_prompt d) "using \x27-\x27 as the bullet character"
      ∧ containsStr (build_prompt d) "≤ 50 characters"
      ∧ containsStr (build_prompt d) "≤ 70 characters"
      ∧ containsStr (build_prompt d)
          "- Do NOT include prefixes like \x27feat:\x27 or \x27fix:\x27 in the commit message." :=
  ⟨rfl,
   ⟨promptHead, promptTail, rfl⟩,
   containsStr_of_head_split _ _ _ _ promptHead_split_bulletDash,
   containsStr_of_head_split _ _ _ _ promptHead_split_fifty,
   containsStr_of_head_split _ _ _ _ promptHead_split_seventy,
   containsStr_of_head_split _ _ _ _ promptHead_split_noTypePfx⟩

/-- Witness for C6: the template facts at the concrete diff "+x". -/
theorem claim6_prompt_contains_instructions_witness :
    build_prompt "+x" = promptHead ++ "+x" ++ promptTail
      ∧ containsStr (build_prompt "+x") "+x"
      ∧ containsStr (build_prompt "+x") "using \x27-\x27 as the bullet character"
      ∧ containsStr (build_prompt "+x") "≤ 50 characters"
      ∧ containsStr (build_prompt "+x") "≤ 70 characters"
      ∧ containsStr (build_prompt "+x")
          "- Do NOT include prefixes like \x27feat:\x27 or \x27fix:\x27 in the commit message." :=
  claim6_prompt_contains_instructions "+x" (by decide)

/-- Claim C10: prompt construction is injective: distinct diff strings
always build distinct prompts, because the diff sits between the two
fixed template constants. -/
theorem claim10_build_prompt_injective (d1 d2 : String) (hne : d1 ≠ d2) :
    build_prompt d1 ≠ build_prompt d2 := by
  intro heq
  apply hne
  have hdata := congrArg String.data heq
  simp only [build_prompt, String.data_append] at hdata
  rw [List.append_assoc, List.append_assoc] at hdata
  exact String.ext (List.append_cancel_right (List.append_cancel_left hdata))

/-- Witness for C10: the distinct diffs "+a" and "+b" give distinct
prompts. -/
theorem claim10_build_prompt_injective_witness :
    build_prompt "+a" ≠ build_prompt "+b" :=
  claim10_build_prompt_injective "+a" "+b" (by decide)

end AICommit
